import Mathlib

/-!
Verification of the adiit_agent repository (src/adiit_agent/agent.py).

The repository has two computable components:

* the malaria Risk Classifier `calculate_malaria_risk`, a pure function from
  two numeric climate observations to a discretized risk assessment;
* three Prompt Dispatcher functions (`generate_vlo_manifest`,
  `generate_adiit_crisis_response`, `generate_epidemic_intelligence`) that
  build a text prompt from a static knowledge table plus caller text, send it
  to an external text-generation collaborator, and wrap the reply or the
  failure in a uniform result record.

Python floats are embedded as rationals (ℚ); `x // c` on floats is embedded
as `⌊x / c⌋`.  The external collaborator (the hosted generative model) is
embedded as a parameter `collab : String → CollabOutcome`: one call per
invocation, returning either reply text or a raised exception carrying its
stringified message.  The wall clock / timezone library is embedded as a
parameter `clock : String → String` mapping a timezone name to the ISO
timestamp the library would produce for it; the code always applies it to
"Africa/Nairobi".
-/

/-- Risk Assessment value object returned by `calculate_malaria_risk`:
discretized temperature and rainfall codes, combined risk percentage,
epidemic flag, and the fixed epidemic threshold. -/
structure RiskAssessment where
  risk_percent : ℤ
  epidemic : Bool
  tmax_code : ℤ
  rainfall_code : ℤ
  threshold : ℤ
  deriving DecidableEq

/-- Embedding of `calculate_malaria_risk` (agent.py lines 65-79):
`tmax_code = min(int(tmax_anomaly // 0.5), 5)`,
`rainfall_code = min(int(rainfall_mm // 50), 6)`,
`risk_percent = (tmax_code + rainfall_code) * 10`,
`epidemic = risk_percent >= 30`, `threshold = 30`.
Python float floor-division `x // c` produces the floor of the quotient and
`int(...)` of that already-integral float is the identity, so both codes are
`min ⌊x / c⌋ cap`. -/
def calculate_malaria_risk (tmax_anomaly rainfall_mm : ℚ) : RiskAssessment :=
  let tmax_code : ℤ := min ⌊tmax_anomaly / (0.5 : ℚ)⌋ 5
  let rainfall_code : ℤ := min ⌊rainfall_mm / (50 : ℚ)⌋ 6
  let risk_percent : ℤ := (tmax_code + rainfall_code) * 10
  { risk_percent := risk_percent
    epidemic := decide (risk_percent ≥ 30)
    tmax_code := tmax_code
    rainfall_code := rainfall_code
    threshold := 30 }

/-- C1: the classifier computes `temperature_code = min(floor(t / 0.5), 5)`
and `rainfall_code = min(floor(r / 50), 6)`; any temperature anomaly ≥ 2.5
saturates at code 5, rainfall ≥ 300 saturates at code 6, and negative inputs
floor to negative integer codes (no clamping to zero). -/
theorem calculate_malaria_risk_codes (t r : ℚ) :
    (calculate_malaria_risk t r).tmax_code = min ⌊t / (0.5 : ℚ)⌋ 5 ∧
    (calculate_malaria_risk t r).rainfall_code = min ⌊r / (50 : ℚ)⌋ 6 ∧
    ((5 : ℚ) / 2 ≤ t → (calculate_malaria_risk t r).tmax_code = 5) ∧
    ((300 : ℚ) ≤ r → (calculate_malaria_risk t r).rainfall_code = 6) ∧
    (t < 0 → (calculate_malaria_risk t r).tmax_code < 0) ∧
    (r < 0 → (calculate_malaria_risk t r).rainfall_code < 0) := by
  refine ⟨rfl, rfl, ?_, ?_, ?_, ?_⟩
  · intro h
    show min ⌊t / (0.5 : ℚ)⌋ 5 = 5
    have h5 : (5 : ℤ) ≤ ⌊t / (0.5 : ℚ)⌋ := by
      rw [Int.le_floor]
      rw [le_div_iff₀ (by norm_num)]
      push_cast
      linarith
    exact min_eq_right h5
  · intro h
    show min ⌊r / (50 : ℚ)⌋ 6 = 6
    have h6 : (6 : ℤ) ≤ ⌊r / (50 : ℚ)⌋ := by
      rw [Int.le_floor]
      rw [le_div_iff₀ (by norm_num)]
      push_cast
      linarith
    exact min_eq_right h6
  · intro h
    show min ⌊t / (0.5 : ℚ)⌋ 5 < 0
    have hneg : ⌊t / (0.5 : ℚ)⌋ < 0 := by
      have : t / (0.5 : ℚ) < 0 := div_neg_of_neg_of_pos h (by norm_num)
      exact Int.floor_lt.mpr (by push_cast; linarith)
    omega
  · intro h
    show min ⌊r / (50 : ℚ)⌋ 6 < 0
    have hneg : ⌊r / (50 : ℚ)⌋ < 0 := by
      have : r / (50 : ℚ) < 0 := div_neg_of_neg_of_pos h (by norm_num)
      exact Int.floor_lt.mpr (by push_cast; linarith)
    omega

/-- Witness for C1: at temperature anomaly 3 the code saturates at 5, and at
rainfall -1 the rainfall code is negative. -/
theorem calculate_malaria_risk_codes_w :
    (calculate_malaria_risk 3 350).tmax_code = 5 ∧
    (calculate_malaria_risk 3 350).rainfall_code = 6 ∧
    (calculate_malaria_risk (-1) (-1)).rainfall_code < 0 := by
  refine ⟨(calculate_malaria_risk_codes 3 350).2.2.1 (by norm_num),
    (calculate_malaria_risk_codes 3 350).2.2.2.1 (by norm_num),
    (calculate_malaria_risk_codes (-1) (-1)).2.2.2.2.2 (by norm_num)⟩

/-- C2: `risk_percent = (temperature_code + rainfall_code) * 10` and
`epidemic = (risk_percent >= 30)` with the threshold inclusive:
`risk_percent = 30` yields `epidemic = true`, `risk_percent = 20` yields
`epidemic = false`. -/
theorem calculate_malaria_risk_epidemic (t r : ℚ) :
    (calculate_malaria_risk t r).risk_percent =
      ((calculate_malaria_risk t r).tmax_code +
        (calculate_malaria_risk t r).rainfall_code) * 10 ∧
    (calculate_malaria_risk t r).epidemic =
      decide ((calculate_malaria_risk t r).risk_percent ≥ 30) ∧
    ((calculate_malaria_risk t r).risk_percent = 30 →
      (calculate_malaria_risk t r).epidemic = true) ∧
    ((calculate_malaria_risk t r).risk_percent = 20 →
      (calculate_malaria_risk t r).epidemic = false) := by
  have he : (calculate_malaria_risk t r).epidemic =
      decide ((calculate_malaria_risk t r).risk_percent ≥ 30) := rfl
  refine ⟨rfl, rfl, ?_, ?_⟩
  · intro h
    rw [he, h]
    decide
  · intro h
    rw [he, h]
    decide

/-- Witness for C2: inputs (1.5, 0) give risk 30 hence epidemic, inputs
(1, 0) give risk 20 hence no epidemic. -/
theorem calculate_malaria_risk_epidemic_w :
    (calculate_malaria_risk 1.5 0).epidemic = true ∧
    (calculate_malaria_risk 1 0).epidemic = false := by
  refine ⟨(calculate_malaria_risk_epidemic 1.5 0).2.2.1
      (by norm_num [calculate_malaria_risk]),
    (calculate_malaria_risk_epidemic 1 0).2.2.2
      (by norm_num [calculate_malaria_risk])⟩

/-- Counterexample for C3: at input (-1, 50), accepted by the classifier, the
temperature code is -2, violating the claimed invariant `tmax_code ∈ [0,5]`. -/
theorem calculate_malaria_risk_range_cex :
    (calculate_malaria_risk (-1) 50).tmax_code = -2 ∧
    ¬ (0 ≤ (calculate_malaria_risk (-1) 50).tmax_code) := by
  norm_num [calculate_malaria_risk]

/-- C3 (amended): the upper bounds `tmax_code ≤ 5` and `rainfall_code ≤ 6`
hold unconditionally, and for nonnegative inputs the codes lie in the claimed
ranges: `0 ≤ t` gives `tmax_code ∈ [0,5]` and `0 ≤ r` gives
`rainfall_code ∈ [0,6]`; negative inputs produce negative codes, so the lower
bound 0 is not an unconditional invariant. -/
theorem calculate_malaria_risk_range (t r : ℚ) :
    (calculate_malaria_risk t r).tmax_code ≤ 5 ∧
    (calculate_malaria_risk t r).rainfall_code ≤ 6 ∧
    ((0 : ℚ) ≤ t → 0 ≤ (calculate_malaria_risk t r).tmax_code) ∧
    ((0 : ℚ) ≤ r → 0 ≤ (calculate_malaria_risk t r).rainfall_code) ∧
    (t < 0 → (calculate_malaria_risk t r).tmax_code < 0) ∧
    (r < 0 → (calculate_malaria_risk t r).rainfall_code < 0) := by
  refine ⟨min_le_right _ _, min_le_right _ _, ?_, ?_, ?_, ?_⟩
  · intro h
    have h0 : (0 : ℤ) ≤ ⌊t / (0.5 : ℚ)⌋ :=
      Int.floor_nonneg.mpr (div_nonneg h (by norm_num))
    show 0 ≤ min ⌊t / (0.5 : ℚ)⌋ 5
    omega
  · intro h
    have h0 : (0 : ℤ) ≤ ⌊r / (50 : ℚ)⌋ :=
      Int.floor_nonneg.mpr (div_nonneg h (by norm_num))
    show 0 ≤ min ⌊r / (50 : ℚ)⌋ 6
    omega
  · intro h
    have hneg : ⌊t / (0.5 : ℚ)⌋ < 0 := by
      have : t / (0.5 : ℚ) < 0 := div_neg_of_neg_of_pos h (by norm_num)
      exact Int.floor_lt.mpr (by push_cast; linarith)
    show min ⌊t / (0.5 : ℚ)⌋ 5 < 0
    omega
  · intro h
    have hneg : ⌊r / (50 : ℚ)⌋ < 0 := by
      have : r / (50 : ℚ) < 0 := div_neg_of_neg_of_pos h (by norm_num)
      exact Int.floor_lt.mpr (by push_cast; linarith)
    show min ⌊r / (50 : ℚ)⌋ 6 < 0
    omega

/-- Witness for the amended C3: the nonnegative input (1, 75) has both codes
in range, and the negative input (-1, -2) has both codes negative. -/
theorem calculate_malaria_risk_range_w :
    (0 ≤ (calculate_malaria_risk 1 75).tmax_code ∧
      (calculate_malaria_risk 1 75).tmax_code ≤ 5) ∧
    (0 ≤ (calculate_malaria_risk 1 75).rainfall_code ∧
      (calculate_malaria_risk 1 75).rainfall_code ≤ 6) ∧
    (calculate_malaria_risk (-1) (-2)).tmax_code < 0 ∧
    (calculate_malaria_risk (-1) (-2)).rainfall_code < 0 := by
  have h1 := calculate_malaria_risk_range 1 75
  have h2 := calculate_malaria_risk_range (-1) (-2)
  exact ⟨⟨h1.2.2.1 (by norm_num), h1.1⟩,
    ⟨h1.2.2.2.1 (by norm_num), h1.2.1⟩,
    h2.2.2.2.2.1 (by norm_num), h2.2.2.2.2.2 (by norm_num)⟩

/-- C7: the classifier is total over its numeric domain: for every finite
pair it returns a Risk Assessment value (no error path, no validation); the
embedding as a total pure Lean function also reflects the absence of side
effects in the source. -/
theorem calculate_malaria_risk_total (t r : ℚ) :
    ∃ a : RiskAssessment, calculate_malaria_risk t r = a ∧
      a.threshold = 30 ∧
      a.risk_percent = (a.tmax_code + a.rainfall_code) * 10 ∧
      a.epidemic = decide (a.risk_percent ≥ 30) :=
  ⟨calculate_malaria_risk t r, rfl, rfl, rfl, rfl⟩

/-- C8: the temperature code is monotone non-decreasing on [0, 10) and the
rainfall code is monotone non-decreasing on [0, 1000), and each equals its
min/floor expression there. -/
theorem calculate_malaria_risk_monotone :
    (∀ x y r : ℚ, 0 ≤ x → x ≤ y → y < 10 →
      (calculate_malaria_risk x r).tmax_code ≤
        (calculate_malaria_risk y r).tmax_code ∧
      (calculate_malaria_risk x r).tmax_code = min ⌊x / (0.5 : ℚ)⌋ 5) ∧
    (∀ x y t : ℚ, 0 ≤ x → x ≤ y → y < 1000 →
      (calculate_malaria_risk t x).rainfall_code ≤
        (calculate_malaria_risk t y).rainfall_code ∧
      (calculate_malaria_risk t x).rainfall_code = min ⌊x / (50 : ℚ)⌋ 6) := by
  constructor
  · intro x y r _ hxy _
    refine ⟨?_, rfl⟩
    show min ⌊x / (0.5 : ℚ)⌋ 5 ≤ min ⌊y / (0.5 : ℚ)⌋ 5
    have hd : x / (0.5 : ℚ) ≤ y / (0.5 : ℚ) := by
      apply div_le_div_of_nonneg_right hxy
      norm_num
    exact min_le_min (Int.floor_le_floor hd) le_rfl
  · intro x y t _ hxy _
    refine ⟨?_, rfl⟩
    show min ⌊x / (50 : ℚ)⌋ 6 ≤ min ⌊y / (50 : ℚ)⌋ 6
    have hd : x / (50 : ℚ) ≤ y / (50 : ℚ) := by
      apply div_le_div_of_nonneg_right hxy
      norm_num
    exact min_le_min (Int.floor_le_floor hd) le_rfl

/-- Witness for C8 at concrete points of the stated intervals. -/
theorem calculate_malaria_risk_monotone_w :
    (calculate_malaria_risk 1 0).tmax_code ≤ (calculate_malaria_risk 2 0).tmax_code ∧
    (calculate_malaria_risk 0 10).rainfall_code ≤
      (calculate_malaria_risk 0 100).rainfall_code := by
  refine ⟨(calculate_malaria_risk_monotone.1 1 2 0 (by norm_num) (by norm_num)
      (by norm_num)).1,
    (calculate_malaria_risk_monotone.2 10 100 0 (by norm_num) (by norm_num)
      (by norm_num)).1⟩

/-- C9: the three specified example classifications hold exactly:
(2.0, 293.2) gives codes 4 and 5, risk 90, epidemic; (0.4, 10) gives codes
0 and 0, risk 0, no epidemic; (3.0, 0) gives saturated temperature code 5,
rainfall code 0, risk 50, epidemic. -/
theorem calculate_malaria_risk_examples :
    calculate_malaria_risk 2.0 293.2 =
      { risk_percent := 90, epidemic := true, tmax_code := 4,
        rainfall_code := 5, threshold := 30 } ∧
    calculate_malaria_risk 0.4 10 =
      { risk_percent := 0, epidemic := false, tmax_code := 0,
        rainfall_code := 0, threshold := 30 } ∧
    calculate_malaria_risk 3.0 0 =
      { risk_percent := 50, epidemic := true, tmax_code := 5,
        rainfall_code := 0, threshold := 30 } := by
  norm_num [calculate_malaria_risk, RiskAssessment.mk.injEq]

/-- C10: for every input pair, `tmax_code ≤ 5`, `rainfall_code ≤ 6`, hence
`risk_percent ≤ 110`; the risk is always a multiple of 10 and the threshold
field always equals 30. -/
theorem calculate_malaria_risk_bounds (t r : ℚ) :
    (calculate_malaria_risk t r).tmax_code ≤ 5 ∧
    (calculate_malaria_risk t r).rainfall_code ≤ 6 ∧
    (calculate_malaria_risk t r).risk_percent ≤ 110 ∧
    (10 ∣ (calculate_malaria_risk t r).risk_percent) ∧
    (calculate_malaria_risk t r).threshold = 30 := by
  have h1 : (calculate_malaria_risk t r).tmax_code ≤ 5 := min_le_right _ _
  have h2 : (calculate_malaria_risk t r).rainfall_code ≤ 6 := min_le_right _ _
  have h3 : (calculate_malaria_risk t r).risk_percent =
      ((calculate_malaria_risk t r).tmax_code +
        (calculate_malaria_risk t r).rainfall_code) * 10 := rfl
  refine ⟨h1, h2, ?_, ?_, rfl⟩
  · rw [h3]; linarith
  · rw [h3]; exact dvd_mul_left 10 _

/-- The serialized Static Knowledge Table: the text `json.dumps(TURKANA_DATA,
indent=2)` interpolates into every prompt.  `TURKANA_DATA` is the immutable
module-level dictionary of agent.py lines 23-56; this constant is its JSON
serialization with two-space indentation, transcribed entry by entry. -/
def turkanaDataJson : String :=
  String.intercalate ("\n")
    ["\x7b",
     "  \"emergency_declared\": \"2025-09-26\",",
     "  \"kala_azar\": \x7b",
     "    \"cases_2025\": 2043,",
     "    \"peak_june\": 125,",
     "    \"deaths\": 18,",
     "    \"cfr\": 0.062,",
     "    \"demographics\": \x7b",
     "      \"male\": 0.72,",
     "      \"under_24\": 0.87,",
     "      \"malnourished\": 0.2",
     "    \x7d,",
     "    \"hotspots\": [",
     "      \"Kerio\",",
     "      \"Nakurio\",",
     "      \"Nadoto\",",
     "      \"Loima\",",
     "      \"Kibish\",",
     "      \"Kakuma\"",
     "    ],",
     "    \"vectors\": [",
     "      \"sandfly_anthills\",",
     "      \"cracked_soil\"",
     "    ]",
     "  \x7d,",
     "  \"malaria\": \x7b",
     "    \"prevalence\": 0.39,",
     "    \"smc_reduction_2024\": 0.7,",
     "    \"kakuma_attack_rate_2005\": 0.122,",
     "    \"habitats\": [",
     "      \"tap_stand_pits\",",
     "      \"drainage_channels\"",
     "    ],",
     "    \"early_warning_model\": \x7b",
     "      \"threshold\": 30,",
     "      \"tmax_code\": [",
     "        0,",
     "        1,",
     "        2,",
     "        3,",
     "        4,",
     "        5",
     "      ],",
     "      \"rainfall_code\": [",
     "        0,",
     "        1,",
     "        2,",
     "        3,",
     "        4,",
     "        5,",
     "        6",
     "      ],",
     "      \"risk_formula\": \"Tmax_Code + Rainfall_Code\"",
     "    \x7d",
     "  \x7d,",
     "  \"gaps\": \x7b",
     "    \"blood\": \x7b",
     "      \"needed_quarter\": 1000,",
     "      \"donated\": 120",
     "    \x7d,",
     "    \"stockouts\": [",
     "      \"RK39\",",
     "      \"DAT\",",
     "      \"SSG_PM\",",
     "      \"Amphotericin B\"",
     "    ],",
     "    \"lost_followup\": 25",
     "  \x7d,",
     "  \"interventions\": \x7b",
     "    \"smc\": true,",
     "    \"lsm\": true,",
     "    \"four_pillar\": true",
     "  \x7d,",
     "  \"logistics\": \x7b",
     "    \"vehicles\": 1,",
     "    \"facilities\": 132,",
     "    \"area_km2\": 71597",
     "  \x7d",
     "\x7d"]

/-- Python truthiness of an optional float argument, as tested by
`if tmax and rain:` (agent.py line 88): `None` is falsy and so is `0.0`;
every other numeric value is truthy. -/
def pyTruthy : Option ℚ → Bool
  | none => false
  | some x => decide (x ≠ 0)

/-- Python `str()` of a boolean: `True` / `False`. -/
def pyBoolStr (b : Bool) : String :=
  if b then "True" else "False"

/-- The one-line risk summary of agent.py line 90:
`f"Malaria Risk: \x7brisk['risk_percent']\x7d% | Epidemic: \x7brisk['epidemic']\x7d"`. -/
def vlo_risk_line (tmax rain : ℚ) : String :=
  let risk := calculate_malaria_risk tmax rain
  "Malaria Risk: " ++ toString risk.risk_percent ++ "% | Epidemic: " ++
    pyBoolStr risk.epidemic

/-- `risk_str` of agent.py lines 87-90: empty unless both optional
observations are truthy (Python `if tmax and rain:`), in which case it is the
one-line risk summary for them. -/
def vlo_risk_str (tmax rain : Option ℚ) : String :=
  if pyTruthy tmax && pyTruthy rain then
    vlo_risk_line (tmax.getD 0) (rain.getD 0)
  else ""

/-- The V-LO prompt text before the `risk_str` interpolation point
(agent.py lines 92-96). -/
def vlo_prompt_header (query : String) : String :=
  "\n        You are V-LO Agent: Vector-Led Orchestration for Turkana Health.\n        DATA: "
    ++ turkanaDataJson ++ "\n        QUERY: " ++ query ++ "\n        "

/-- The V-LO prompt text after the `risk_str` interpolation point
(agent.py lines 97-102). -/
def vlo_prompt_footer : String :=
  "\n        \n        Respond in 3 STEPS:\n        1. LOGISTICS: Single truck route + supplies\n        2. DETECTION: SMS/CHP alert to herders\n        3. VECTOR: LSM, SMC, IRS action\n        "

/-- The full V-LO prompt f-string (agent.py lines 92-102). -/
def vlo_prompt (query : String) (tmax rain : Option ℚ) : String :=
  vlo_prompt_header query ++ vlo_risk_str tmax rain ++ vlo_prompt_footer

/-- The ADIIT crisis-response prompt f-string (agent.py lines 120-132). -/
def adiit_prompt (current_situation : String) : String :=
  "\n        You are ADIIT Agent (Life-Saving Orchestrator). \x27Adiit\x27 = To Save in Turkana.\n        DATA: "
    ++ turkanaDataJson ++ "\n        CRISIS: " ++ current_situation ++
    "\n        \n        RESPOND IN 4 PRIORITIES:\n        1. DRUG RESISTANCE & EXPIRY: Pfk13 mutations, Amphotericin B expiry\n        2. LOGISTICS: Single truck routing across 132 facilities\n        3. CLINICAL ADHERENCE: Support CHPs, simplify protocols\n        4. VECTOR INTELLIGENCE: An. stephensi in Lodwar, sandfly hotspots\n        \n        OUTPUT: Actionable, time-bound, lives-saved estimate\n        "

/-- The epidemic-intelligence prompt f-string (agent.py lines 150-166). -/
def epi_prompt (surveillance_data : String) : String :=
  "\n        Generate 30-DAY EPIDEMIC INTELLIGENCE for Turkana:\n        DATA: "
    ++ turkanaDataJson ++ "\n        SURVEILLANCE: " ++ surveillance_data ++
    "\n        \n        ANALYZE:\n        - Vector dynamics (An. stephensi, An. funestus, sandflies)\n        - Drug resistance (Pfk13 C469Y, P553L, A675V)\n        - Nomadic mobility risks\n        - Multi-disease hotspots\n        \n        PREDICT:\n        - Risk zones next 30 days\n        - Outbreak probability\n        - Early warning signals\n        - Mitigation strategy\n        "

/-- Python whitespace for `str.strip()`: space, tab, newline, carriage
return, vertical tab and form feed (the ASCII characters `str.isspace`
accepts). -/
def pyIsSpace (c : Char) : Bool :=
  c == ' ' || c == '\t' || c == '\n' || c == '\r' || c == '\x0b' || c == '\x0c'

/-- Python `str.strip()`: the string with leading and trailing whitespace
removed. -/
def pyStrip (s : String) : String :=
  String.mk (((s.data.dropWhile pyIsSpace).reverse.dropWhile pyIsSpace).reverse)

/-- Outcome of the single call a dispatcher makes to the external
text-generation collaborator: either the reply text of
`model.generate_content(prompt).text`, or a raised exception carrying its
stringified message `str(e)` (Python allows the empty string here). -/
inductive CollabOutcome where
  | reply (text : String)
  | raises (msg : String)
  deriving DecidableEq

/-- Dispatch Result value object: the `status: success` dictionary with its
remaining string-valued fields in order, or the `status: error` dictionary
carrying only a message.  Every return site of the three dispatchers builds
exactly one of these two shapes. -/
inductive DispatchResult where
  | success (fields : List (String × String))
  | error (message : String)
  deriving DecidableEq

/-- Embedding of `generate_vlo_manifest` (agent.py lines 84-112).  `collab`
is the external text-generation collaborator (one call on the built prompt);
`clock` is the timezone-indexed wall clock, applied to "Africa/Nairobi" as in
`datetime.datetime.now(ZoneInfo("Africa/Nairobi")).isoformat()`.  The reply
text is trimmed as by `str.strip()`. -/
def generate_vlo_manifest (collab : String → CollabOutcome)
    (clock : String → String) (query : String) (tmax rain : Option ℚ) :
    DispatchResult :=
  match collab (vlo_prompt query tmax rain) with
  | CollabOutcome.reply text =>
      DispatchResult.success
        [("agent", "V-LO"), ("manifest", pyStrip text),
         ("generated_at", clock ("Africa/Nairobi"))]
  | CollabOutcome.raises msg => DispatchResult.error msg

/-- Embedding of `generate_adiit_crisis_response` (agent.py lines 117-142). -/
def generate_adiit_crisis_response (collab : String → CollabOutcome)
    (clock : String → String) (current_situation : String) : DispatchResult :=
  match collab (adiit_prompt current_situation) with
  | CollabOutcome.reply text =>
      DispatchResult.success
        [("agent", "ADIIT"), ("crisis_response", pyStrip text),
         ("generated_at", clock ("Africa/Nairobi"))]
  | CollabOutcome.raises msg => DispatchResult.error msg

/-- Embedding of `generate_epidemic_intelligence` (agent.py lines 147-176). -/
def generate_epidemic_intelligence (collab : String → CollabOutcome)
    (clock : String → String) (surveillance_data : String) : DispatchResult :=
  match collab (epi_prompt surveillance_data) with
  | CollabOutcome.reply text =>
      DispatchResult.success
        [("intelligence_report", pyStrip text),
         ("generated_at", clock ("Africa/Nairobi"))]
  | CollabOutcome.raises msg => DispatchResult.error msg

/-- Counterexample for C4: Python permits exceptions whose stringified
message is empty (`str(Exception()) = ""`); with a collaborator raising such
an exception, the dispatcher returns `error` with an empty message, so the
claimed non-emptiness of the message fails (the error shape itself holds). -/
theorem generate_vlo_manifest_empty_message_cex :
    generate_vlo_manifest (fun _ => CollabOutcome.raises "") (fun z => z)
        ("q") none none = DispatchResult.error "" ∧
    ("" : String).isEmpty = true := ⟨rfl, rfl⟩

/-- C4 (amended): whenever the collaborator raises, each dispatcher returns
exactly `error` with the stringified exception as message (so the message is
non-empty whenever the stringified exception is), the exception never
propagates past the boundary, and every invocation returns exactly one of
the two result variants. -/
theorem dispatch_error_boundary (collab : String → CollabOutcome)
    (clock : String → String) (query situation sdata : String)
    (tmax rain : Option ℚ) :
    (∀ msg, collab (vlo_prompt query tmax rain) = CollabOutcome.raises msg →
      generate_vlo_manifest collab clock query tmax rain =
        DispatchResult.error msg) ∧
    (∀ msg, collab (adiit_prompt situation) = CollabOutcome.raises msg →
      generate_adiit_crisis_response collab clock situation =
        DispatchResult.error msg) ∧
    (∀ msg, collab (epi_prompt sdata) = CollabOutcome.raises msg →
      generate_epidemic_intelligence collab clock sdata =
        DispatchResult.error msg) ∧
    ((∃ fields, generate_vlo_manifest collab clock query tmax rain =
        DispatchResult.success fields) ∨
      (∃ msg, generate_vlo_manifest collab clock query tmax rain =
        DispatchResult.error msg)) ∧
    ((∃ fields, generate_adiit_crisis_response collab clock situation =
        DispatchResult.success fields) ∨
      (∃ msg, generate_adiit_crisis_response collab clock situation =
        DispatchResult.error msg)) ∧
    ((∃ fields, generate_epidemic_intelligence collab clock sdata =
        DispatchResult.success fields) ∨
      (∃ msg, generate_epidemic_intelligence collab clock sdata =
        DispatchResult.error msg)) := by
  refine ⟨?_, ?_, ?_, ?_, ?_, ?_⟩
  · intro msg h
    unfold generate_vlo_manifest
    rw [h]
  · intro msg h
    unfold generate_adiit_crisis_response
    rw [h]
  · intro msg h
    unfold generate_epidemic_intelligence
    rw [h]
  · unfold generate_vlo_manifest
    cases collab (vlo_prompt query tmax rain) with
    | reply text => exact Or.inl ⟨_, rfl⟩
    | raises msg => exact Or.inr ⟨_, rfl⟩
  · unfold generate_adiit_crisis_response
    cases collab (adiit_prompt situation) with
    | reply text => exact Or.inl ⟨_, rfl⟩
    | raises msg => exact Or.inr ⟨_, rfl⟩
  · unfold generate_epidemic_intelligence
    cases collab (epi_prompt sdata) with
    | reply text => exact Or.inl ⟨_, rfl⟩
    | raises msg => exact Or.inr ⟨_, rfl⟩

/-- Witness for the amended C4: a collaborator that always raises "boom"
makes every dispatcher return the error record with message "boom". -/
theorem dispatch_error_boundary_w :
    generate_vlo_manifest (fun _ => CollabOutcome.raises "boom") (fun z => z)
        ("q") none none = DispatchResult.error "boom" ∧
    generate_adiit_crisis_response (fun _ => CollabOutcome.raises "boom")
        (fun z => z) ("s") = DispatchResult.error "boom" ∧
    generate_epidemic_intelligence (fun _ => CollabOutcome.raises "boom")
        (fun z => z) ("d") = DispatchResult.error "boom" := by
  have h := dispatch_error_boundary (fun _ => CollabOutcome.raises "boom")
    (fun z => z) ("q") ("s") ("d") none none
  exact ⟨h.1 "boom" rfl, h.2.1 "boom" rfl, h.2.2.1 "boom" rfl⟩

/-- C5: whenever the collaborator replies with text, each dispatcher returns
the success record whose kind-specific field is the reply text trimmed of
surrounding whitespace and whose `generated_at` field is the timestamp the
clock produces for the "Africa/Nairobi" timezone (East Africa Time, UTC+3). -/
theorem dispatch_success_shape (collab : String → CollabOutcome)
    (clock : String → String) (query situation sdata : String)
    (tmax rain : Option ℚ) (text : String) :
    (collab (vlo_prompt query tmax rain) = CollabOutcome.reply text →
      generate_vlo_manifest collab clock query tmax rain =
        DispatchResult.success
          [("agent", "V-LO"), ("manifest", pyStrip text),
           ("generated_at", clock ("Africa/Nairobi"))]) ∧
    (collab (adiit_prompt situation) = CollabOutcome.reply text →
      generate_adiit_crisis_response collab clock situation =
        DispatchResult.success
          [("agent", "ADIIT"), ("crisis_response", pyStrip text),
           ("generated_at", clock ("Africa/Nairobi"))]) ∧
    (collab (epi_prompt sdata) = CollabOutcome.reply text →
      generate_epidemic_intelligence collab clock sdata =
        DispatchResult.success
          [("intelligence_report", pyStrip text),
           ("generated_at", clock ("Africa/Nairobi"))]) := by
  refine ⟨?_, ?_, ?_⟩
  · intro h
    unfold generate_vlo_manifest
    rw [h]
  · intro h
    unfold generate_adiit_crisis_response
    rw [h]
  · intro h
    unfold generate_epidemic_intelligence
    rw [h]

/-- Witness for C5: a collaborator replying with "  X  " yields a success
record whose text field is the trimmed "X" and whose timestamp is the
clock value at "Africa/Nairobi". -/
theorem dispatch_success_shape_w :
    generate_vlo_manifest (fun _ => CollabOutcome.reply "  X  ") (fun z => z)
        ("q") none none =
      DispatchResult.success
        [("agent", "V-LO"), ("manifest", "X"),
         ("generated_at", "Africa/Nairobi")] := by
  have h := (dispatch_success_shape (fun _ => CollabOutcome.reply "  X  ")
    (fun z => z) ("q") ("s") ("d") none none ("  X  ")).1 rfl
  rw [h]
  decide

/-- C6 (the code as written): the V-LO risk summary is controlled by Python
truthiness, not by mere presence: with both observations supplied but
`tmax = 0.0` (a falsy float), no risk summary is included in the prompt,
diverging from the claim; with both supplied and nonzero, the prompt contains
exactly the one-line summary derived from `calculate_malaria_risk`. -/
theorem vlo_risk_summary_truthiness :
    vlo_risk_str (some 0) (some 100) = "" ∧
    vlo_prompt ("q") (some 0) (some 100) =
      vlo_prompt_header ("q") ++ "" ++ vlo_prompt_footer ∧
    vlo_risk_str (some 2) (some 293.2) = vlo_risk_line 2 293.2 ∧
    vlo_risk_line 2 293.2 = "Malaria Risk: 90% | Epidemic: True" ∧
    vlo_prompt ("q") (some 2) (some 293.2) =
      vlo_prompt_header ("q") ++ "Malaria Risk: 90% | Epidemic: True" ++
        vlo_prompt_footer := by
  have hrisk : calculate_malaria_risk 2 293.2 =
      { risk_percent := 90, epidemic := true, tmax_code := 4,
        rainfall_code := 5, threshold := 30 } := by
    norm_num [calculate_malaria_risk, RiskAssessment.mk.injEq]
  have hline : vlo_risk_line 2 293.2 = "Malaria Risk: 90% | Epidemic: True" := by
    rw [vlo_risk_line]
    rw [hrisk]
    rfl
  have hstr : vlo_risk_str (some 2) (some 293.2) = vlo_risk_line 2 293.2 := by
    rw [vlo_risk_str]
    norm_num [pyTruthy]
  refine ⟨rfl, rfl, hstr, hline, ?_⟩
  rw [vlo_prompt, hstr, hline]
